import Mathlib

/-
Shallow embedding of the booking/payment engine of the EventsActivities server.

The model translates the Booking and Event mongoose schemas (booking.model.ts,
event.model.ts), the booking controller (createBooking, updateBooking,
cancelBooking, confirmBooking) and the PaymentService (createPaymentIntent,
confirmPayment, processRefund, handlePaymentSucceeded, handleDisputeCreated).

Modelling conventions:
- Mongo object ids and payment-intent ids are natural numbers.
- Monetary dollar amounts are rationals; gateway amounts are integer cents,
  `Math.round(x * 100)` is `round (x * 100) : Int`.
- The database is a pair of lists (events with their ids, bookings).  A
  document `save` runs mongoose validation (required paths, numeric minimums)
  and, for events, the `pre('save')` status hook; `findByIdAndUpdate` with
  `$inc` runs neither, exactly as in mongoose.
- Schema-required paths that some code path nevertheless omits when
  constructing a document (`quantity` in createBooking, `hostId` in
  confirmPayment / handlePaymentSucceeded) are `Option`s, and validation
  demands them to be present, mirroring the `required: true` declarations.
- The unique index on (userId, eventId) and the implicit unique `_id` index
  reject duplicate inserts, as the mongo server does.
- External gateway calls are oracle inputs: the retrieved intent is passed in
  as an `Option PaymentIntent` (`none` = the retrieve call failed), refund
  acceptance takes a reachability flag plus the processor contract that a
  refund must be positive and cannot exceed the captured amount.
- Per-user side lists (joinedEvents), timestamps, currencies and free-text
  length limits on fields no claim mentions are elided.
-/

namespace EventsApp

inductive EventStatus
  | draft | open_ | full | cancelled | completed
deriving DecidableEq, Repr

inductive BookingStatus
  | pending | confirmed | cancelled | completed | refunded | disputed
deriving DecidableEq, Repr

inductive PaymentStatus
  | pending | paid | failed | refunded
deriving DecidableEq, Repr

inductive UserRole
  | user | host | admin
deriving DecidableEq, Repr

structure Actor where
  id : Nat
  role : UserRole
deriving DecidableEq, Repr

/-- Event document (event.model.ts).  `isPast` stands for the request-time
comparison `event.date < new Date()`. -/
structure EventDoc where
  hostId : Nat
  price : ℚ
  maxParticipants : Nat
  currentParticipants : Int
  status : EventStatus
  participants : List Nat
  isPast : Bool
deriving DecidableEq, Repr

/-- Booking document (booking.model.ts).  `hostId` and `quantity` are
`required: true` in the schema but are left unset by some creation sites,
hence `Option`. -/
structure BookingDoc where
  id : Nat
  userId : Nat
  eventId : Nat
  hostId : Option Nat
  status : BookingStatus
  paymentStatus : PaymentStatus
  paymentIntentId : Option Nat
  amount : ℚ
  quantity : Option Int
  refundId : Option Nat
  refundAmount : Option ℚ
  refundReason : Option String
deriving DecidableEq, Repr

/-- Gateway-side metadata of a payment intent.  The service checks JS
truthiness of each field before use, modelled by `Option`; the quantity is
kept as its `parseInt` image. -/
structure PaymentMetadata where
  eventId : Option Nat
  userId : Option Nat
  quantity : Option Int
deriving DecidableEq, Repr

/-- Gateway-side payment intent, as returned by the retrieve call. -/
structure PaymentIntent where
  id : Nat
  status : String
  amount : Int
  metadata : PaymentMetadata
deriving DecidableEq, Repr

structure DB where
  events : List (Nat × EventDoc)
  bookings : List BookingDoc
deriving DecidableEq, Repr

def findEvent (db : DB) (eventId : Nat) : Option EventDoc :=
  (db.events.find? (fun p => p.1 == eventId)).map (fun p => p.2)

def setEvent (db : DB) (eventId : Nat) (e : EventDoc) : DB :=
  { db with events := db.events.map (fun p => if p.1 == eventId then (p.1, e) else p) }

def findBooking (db : DB) (bookingId : Nat) : Option BookingDoc :=
  db.bookings.find? (fun b => b.id == bookingId)

/-- Replace the stored document carrying the id of `b` by `b` (a mongoose
`save` of a fetched-and-mutated document writes back by `_id`). -/
def updFn (b x : BookingDoc) : BookingDoc :=
  if x.id == b.id then b else x

def setBooking (db : DB) (b : BookingDoc) : DB :=
  { db with bookings := db.bookings.map (updFn b) }

/-- `Event.findByIdAndUpdate(id, { $inc: { currentParticipants: d } })`:
a raw update, running neither validators nor the pre-save hook; a no-op when
the id matches no event. -/
def incEventParticipants (db : DB) (eventId : Nat) (delta : Int) : DB :=
  { db with
    events := db.events.map (fun p =>
      if p.1 == eventId then
        (p.1, { p.2 with currentParticipants := p.2.currentParticipants + delta })
      else p) }

/-- Mongoose validation of a booking document: required paths (`hostId`,
`quantity`) present, `quantity ≥ 1`, `amount ≥ 0`, `refundAmount ≥ 0`. -/
def bookingValidates (b : BookingDoc) : Bool :=
  b.hostId.isSome &&
  (match b.quantity with | some q => decide (1 ≤ q) | none => false) &&
  decide (0 ≤ b.amount) &&
  (match b.refundAmount with | some r => decide (0 ≤ r) | none => true)

/-- Mongoose validation of an event document: `currentParticipants ≥ 0`,
`1 ≤ maxParticipants ≤ 1000`, `0 ≤ price ≤ 10000`. -/
def eventValidates (e : EventDoc) : Bool :=
  decide (0 ≤ e.currentParticipants) &&
  decide (1 ≤ e.maxParticipants) && decide (e.maxParticipants ≤ 1000) &&
  decide (0 ≤ e.price) && decide (e.price ≤ 10000)

/-- The `eventSchema.pre('save')` hook: flip status to `full` once the counter
reaches capacity, revert `full` to `open` when it is below again. -/
def eventPreSaveHook (e : EventDoc) : EventDoc :=
  if (e.maxParticipants : Int) ≤ e.currentParticipants then
    { e with status := EventStatus.full }
  else if e.status = EventStatus.full ∧ e.currentParticipants < (e.maxParticipants : Int) then
    { e with status := EventStatus.open_ }
  else e

/-- `event.save()`: validate, then run the pre-save hook, then write. -/
def saveEventDoc (e : EventDoc) : Option EventDoc :=
  if eventValidates e then some (eventPreSaveHook e) else none

/-- `booking.save()` for an already-stored document: validate, then write. -/
def saveBookingDoc (b : BookingDoc) : Option BookingDoc :=
  if bookingValidates b then some b else none

/-- Inserting a new booking (`Booking.create` / `new Booking(...).save()`):
validation plus the unique `_id` index and the unique (userId, eventId)
compound index of bookingSchema. -/
def insertBooking (db : DB) (b : BookingDoc) : Except String DB :=
  if !(bookingValidates b) then Except.error "ValidationError"
  else if db.bookings.any (fun x => x.id == b.id) then
    Except.error "E11000 duplicate key"
  else if db.bookings.any (fun x => x.userId == b.userId && x.eventId == b.eventId) then
    Except.error "E11000 duplicate key"
  else Except.ok { db with bookings := db.bookings ++ [b] }

/-- `Booking.countDocuments({ eventId, status: { $ne: 'cancelled' } })`. -/
def activeBookingsCount (db : DB) (eventId : Nat) : Nat :=
  (db.bookings.filter (fun b => b.eventId == eventId && b.status != BookingStatus.cancelled)).length

/-- `createBooking` (booking controller).  Reads only `eventId`,
`specialRequests`, `notes` from the body; the created document carries
`amount = event.price` and no `quantity`.  `newId` is the generated mongo id. -/
def createBooking (db : DB) (actor : Actor) (eventId : Nat) (newId : Nat) :
    DB × Except String BookingDoc :=
  match findEvent db eventId with
  | none => (db, Except.error "Event not found")
  | some event =>
    if event.status ≠ EventStatus.open_ then
      (db, Except.error "Event is not open for booking")
    else if (event.maxParticipants : Int) ≤ event.currentParticipants then
      (db, Except.error "Event is full")
    else if (db.bookings.find? (fun b => b.userId == actor.id && b.eventId == eventId)).isSome then
      (db, Except.error "You already have a booking for this event")
    else
      let booking : BookingDoc :=
        { id := newId, userId := actor.id, eventId := eventId,
          hostId := some event.hostId,
          amount := event.price,
          status := if 0 < event.price then BookingStatus.pending else BookingStatus.confirmed,
          paymentStatus := if 0 < event.price then PaymentStatus.pending else PaymentStatus.paid,
          paymentIntentId := none, quantity := none,
          refundId := none, refundAmount := none, refundReason := none }
      match insertBooking db booking with
      | Except.error e => (db, Except.error e)
      | Except.ok db1 =>
        if event.price = 0 then
          let e1 := { event with
                      participants := event.participants ++ [actor.id],
                      currentParticipants := event.currentParticipants + 1 }
          match saveEventDoc e1 with
          | some e2 => (setEvent db1 eventId e2, Except.ok booking)
          | none => (db1, Except.error "ValidationError")
        else (db1, Except.ok booking)

structure PaymentIntentResponse where
  paymentIntentId : Nat
  amount : Int
deriving DecidableEq, Repr

/-- `PaymentService.createPaymentIntent`.  The availability check counts
non-cancelled booking documents; the gateway create call is represented by
the fresh id `newIntentId`. -/
def createPaymentIntent (db : DB) (userId eventId : Nat) (quantity : Nat) (newIntentId : Nat) :
    DB × Except String PaymentIntentResponse :=
  match findEvent db eventId with
  | none => (db, Except.error "Event not found")
  | some event =>
    if event.status ≠ EventStatus.open_ then
      (db, Except.error "Event is not available for booking")
    else if event.isPast then
      (db, Except.error "Cannot book past events")
    else if event.maxParticipants < activeBookingsCount db eventId + quantity then
      (db, Except.error "Not enough spots available")
    else
      (db, Except.ok { paymentIntentId := newIntentId,
                       amount := round (event.price * (quantity : ℚ) * 100) })

/-- `PaymentService.confirmPayment`.  `retrieved` is the gateway answer for
`paymentIntentId` (`none` = retrieve threw).  Every inner failure is caught
and rethrown as the single message of the catch block.  Note the constructed
booking carries no `hostId`. -/
def confirmPayment (db : DB) (paymentIntentId : Nat) (retrieved : Option PaymentIntent)
    (newBookingId : Nat) : DB × Except String Unit :=
  match retrieved with
  | none => (db, Except.error "Failed to confirm payment")
  | some paymentIntent =>
    if paymentIntent.status ≠ "succeeded" then
      (db, Except.error "Failed to confirm payment")
    else
      match paymentIntent.metadata.eventId, paymentIntent.metadata.userId,
            paymentIntent.metadata.quantity with
      | some mEventId, some mUserId, some mQuantity =>
        if (db.bookings.find? (fun b =>
              b.paymentIntentId == some paymentIntentId &&
              b.status != BookingStatus.cancelled)).isSome then
          (db, Except.error "Failed to confirm payment")
        else
          let booking : BookingDoc :=
            { id := newBookingId, userId := mUserId, eventId := mEventId,
              hostId := none,
              status := BookingStatus.confirmed, paymentStatus := PaymentStatus.paid,
              paymentIntentId := some paymentIntentId,
              amount := (paymentIntent.amount : ℚ) / 100,
              quantity := some mQuantity,
              refundId := none, refundAmount := none, refundReason := none }
          match insertBooking db booking with
          | Except.error _ => (db, Except.error "Failed to confirm payment")
          | Except.ok db1 => (incEventParticipants db1 mEventId mQuantity, Except.ok ())
      | _, _, _ => (db, Except.error "Failed to confirm payment")

/-- `PaymentService.handlePaymentSucceeded` (webhook path).  Missing metadata
is logged and dropped; an existing non-cancelled booking for the intent is
silently acknowledged; a save failure propagates out of the handler. -/
def handlePaymentSucceeded (db : DB) (paymentIntent : PaymentIntent) (newBookingId : Nat) :
    DB × Except String Unit :=
  match paymentIntent.metadata.eventId, paymentIntent.metadata.userId,
        paymentIntent.metadata.quantity with
  | some mEventId, some mUserId, some mQuantity =>
    if (db.bookings.find? (fun b =>
          b.paymentIntentId == some paymentIntent.id &&
          b.status != BookingStatus.cancelled)).isSome then
      (db, Except.ok ())
    else
      let booking : BookingDoc :=
        { id := newBookingId, userId := mUserId, eventId := mEventId,
          hostId := none,
          status := BookingStatus.confirmed, paymentStatus := PaymentStatus.paid,
          paymentIntentId := some paymentIntent.id,
          amount := (paymentIntent.amount : ℚ) / 100,
          quantity := some mQuantity,
          refundId := none, refundAmount := none, refundReason := none }
      match insertBooking db booking with
      | Except.error e => (db, Except.error e)
      | Except.ok db1 => (incEventParticipants db1 mEventId mQuantity, Except.ok ())
  | _, _, _ => (db, Except.ok ())

/-- `confirmBooking` (booking controller): host-side acceptance of a paid
pending booking. -/
def confirmBooking (db : DB) (actor : Actor) (bookingId : Nat) :
    DB × Except String BookingDoc :=
  match findBooking db bookingId with
  | none => (db, Except.error "Booking not found")
  | some booking =>
    if booking.hostId ≠ some actor.id ∧ actor.role ≠ UserRole.admin then
      (db, Except.error "Access denied. Only hosts can confirm bookings")
    else if booking.status ≠ BookingStatus.pending then
      (db, Except.error "Booking cannot be confirmed")
    else if booking.paymentStatus ≠ PaymentStatus.paid then
      (db, Except.error "Payment must be completed before confirming booking")
    else
      let b1 := { booking with status := BookingStatus.confirmed }
      match saveBookingDoc b1 with
      | none => (db, Except.error "ValidationError")
      | some b2 =>
        let db1 := setBooking db b2
        match findEvent db1 booking.eventId with
        | none => (db1, Except.ok b2)
        | some event =>
          if booking.userId ∈ event.participants then (db1, Except.ok b2)
          else
            let e1 := { event with
                        participants := event.participants ++ [booking.userId],
                        currentParticipants := event.currentParticipants + 1 }
            match saveEventDoc e1 with
            | some e2 => (setEvent db1 booking.eventId e2, Except.ok b2)
            | none => (db1, Except.error "ValidationError")

/-- The `if (booking.status === 'confirmed')` block of `cancelBooking`:
remove the user from the participants, decrement the counter, revert a full
event to open, and save (which can fail validation, aborting the request). -/
def cancelBookingEventUpdate (db : DB) (booking : BookingDoc) : Except String DB :=
  if booking.status = BookingStatus.confirmed then
    match findEvent db booking.eventId with
    | none => Except.ok db
    | some event =>
      let e1 := { event with
                  participants := event.participants.filter (fun u => u != booking.userId),
                  currentParticipants := event.currentParticipants - 1 }
      let e2 := if e1.status = EventStatus.full then
                  { e1 with status := EventStatus.open_ } else e1
      match saveEventDoc e2 with
      | some e3 => Except.ok (setEvent db booking.eventId e3)
      | none => Except.error "ValidationError"
  else Except.ok db

/-- `cancelBooking` (booking controller).  Decrements the event counter only
when the booking was `confirmed`; unconditionally writes status `cancelled`;
has no already-cancelled rejection. -/
def cancelBooking (db : DB) (actor : Actor) (bookingId : Nat) :
    DB × Except String BookingDoc :=
  match findBooking db bookingId with
  | none => (db, Except.error "Booking not found")
  | some booking =>
    if booking.userId ≠ actor.id ∧ booking.hostId ≠ some actor.id ∧
        actor.role ≠ UserRole.admin then
      (db, Except.error "Access denied")
    else
      match cancelBookingEventUpdate db booking with
      | Except.error e => (db, Except.error e)
      | Except.ok db1 =>
        let b1 := { booking with status := BookingStatus.cancelled }
        match saveBookingDoc b1 with
        | some b2 => (setBooking db1 b2, Except.ok b2)
        | none => (db1, Except.error "ValidationError")

/-- `updateBooking` (booking controller): `findByIdAndUpdate` writing the
requested status (validated against the enum, hence typed), with owner/host
permission checks; `specialRequests`/`notes` are elided. -/
def updateBooking (db : DB) (actor : Actor) (bookingId : Nat)
    (statusUpd : Option BookingStatus) : DB × Except String BookingDoc :=
  match findBooking db bookingId with
  | none => (db, Except.error "Booking not found")
  | some booking =>
    if booking.userId ≠ actor.id ∧ booking.hostId ≠ some actor.id ∧
        actor.role ≠ UserRole.admin then
      (db, Except.error "Access denied")
    else if statusUpd.isSome ∧ booking.hostId ≠ some actor.id ∧
        actor.role ≠ UserRole.admin then
      (db, Except.error "Only hosts can change booking status")
    else
      let b1 := { booking with status := statusUpd.getD booking.status }
      (setBooking db b1, Except.ok b1)

/-- The external payment processor accepts a refund request only when it is
reachable and the requested amount is positive and does not exceed the amount
captured by the intent; this is the documented contract of the gateway the
service wraps (the service itself performs no such check). -/
def gatewayAcceptsRefund (gatewayUp : Bool) (refundCents : Int) (paymentIntent : PaymentIntent) :
    Bool :=
  gatewayUp && decide (0 < refundCents) && decide (refundCents ≤ paymentIntent.amount)

/-- `PaymentService.processRefund`.  `retrieved` is the gateway answer for
`booking.paymentIntentId`; a requested amount is converted with
`Math.round(amount * 100)` unless it is absent or 0 (JS falsiness), in which
case the full captured amount is used.  Any gateway failure is caught and
rethrown as the catch-block message, leaving the store untouched. -/
def processRefund (db : DB) (bookingId : Nat) (amount : Option ℚ) (reason : Option String)
    (retrieved : Option PaymentIntent) (gatewayUp : Bool) (newRefundId : Nat) :
    DB × Except String Unit :=
  match findBooking db bookingId with
  | none => (db, Except.error "Booking not found")
  | some booking =>
    if booking.status = BookingStatus.cancelled then
      (db, Except.error "Booking already cancelled")
    else if booking.paymentStatus ≠ PaymentStatus.paid then
      (db, Except.error "No payment to refund")
    else
      match retrieved with
      | none => (db, Except.error "Failed to process refund")
      | some paymentIntent =>
        let refundCents : Int :=
          match amount with
          | some a => if a ≠ 0 then round (a * 100) else paymentIntent.amount
          | none => paymentIntent.amount
        if !(gatewayAcceptsRefund gatewayUp refundCents paymentIntent) then
          (db, Except.error "Failed to process refund")
        else
          let b1 := { booking with
                      status := BookingStatus.cancelled,
                      paymentStatus := PaymentStatus.refunded,
                      refundId := some newRefundId,
                      refundAmount := some ((refundCents : ℚ) / 100),
                      refundReason := reason }
          match saveBookingDoc b1 with
          | none => (db, Except.error "Failed to process refund")
          | some b2 =>
            (incEventParticipants (setBooking db b2) booking.eventId
              (-(booking.quantity.getD 0)), Except.ok ())

/-- `PaymentService.handleDisputeCreated`: the first booking carrying the
disputed intent id (with no status filter) is marked `disputed`. -/
def handleDisputeCreated (db : DB) (disputeIntentId : Nat) : DB × Except String Unit :=
  match db.bookings.find? (fun b => b.paymentIntentId == some disputeIntentId) with
  | none => (db, Except.ok ())
  | some booking =>
    let b1 := { booking with status := BookingStatus.disputed }
    match saveBookingDoc b1 with
    | some b2 => (setBooking db b2, Except.ok ())
    | none => (db, Except.error "ValidationError")

/-- One client-observable operation of the engine, with its oracle inputs. -/
inductive Op
  | createBooking (actor : Actor) (eventId newId : Nat)
  | createPaymentIntent (userId eventId quantity newIntentId : Nat)
  | confirmPayment (paymentIntentId : Nat) (retrieved : Option PaymentIntent) (newBookingId : Nat)
  | handlePaymentSucceeded (paymentIntent : PaymentIntent) (newBookingId : Nat)
  | confirmBooking (actor : Actor) (bookingId : Nat)
  | cancelBooking (actor : Actor) (bookingId : Nat)
  | updateBooking (actor : Actor) (bookingId : Nat) (statusUpd : Option BookingStatus)
  | processRefund (bookingId : Nat) (amount : Option ℚ) (reason : Option String)
      (retrieved : Option PaymentIntent) (gatewayUp : Bool) (newRefundId : Nat)
  | handleDisputeCreated (disputeIntentId : Nat)
deriving Repr

/-- The store an operation leaves behind. -/
def applyOp (db : DB) : Op → DB
  | Op.createBooking a e n => (createBooking db a e n).1
  | Op.createPaymentIntent u e q n => (createPaymentIntent db u e q n).1
  | Op.confirmPayment p r n => (confirmPayment db p r n).1
  | Op.handlePaymentSucceeded p n => (handlePaymentSucceeded db p n).1
  | Op.confirmBooking a b => (confirmBooking db a b).1
  | Op.cancelBooking a b => (cancelBooking db a b).1
  | Op.updateBooking a b s => (updateBooking db a b s).1
  | Op.processRefund b a r pi g n => (processRefund db b a r pi g n).1
  | Op.handleDisputeCreated i => (handleDisputeCreated db i).1

def applyOps (db : DB) (ops : List Op) : DB := ops.foldl applyOp db

/-- All stored bookings carry distinct mongo `_id`s (the `_id` index). -/
def idsDistinct (l : List BookingDoc) : Prop :=
  l.Pairwise (fun a b => a.id ≠ b.id)

/-- All stored bookings carry distinct (userId, eventId) pairs (the unique
compound index of bookingSchema). -/
def pairsDistinct (l : List BookingDoc) : Prop :=
  l.Pairwise (fun a b => ¬(a.userId = b.userId ∧ a.eventId = b.eventId))

/-- Number of non-cancelled bookings stored for one (userId, eventId) pair. -/
def activePairCount (db : DB) (userId eventId : Nat) : Nat :=
  (db.bookings.filter (fun b =>
    b.userId == userId && b.eventId == eventId &&
    b.status != BookingStatus.cancelled)).length

/-- Number of bookings of an event whose status is confirmed or completed. -/
def countedBookings (db : DB) (eventId : Nat) : Nat :=
  (db.bookings.filter (fun b =>
    b.eventId == eventId &&
    (b.status == BookingStatus.confirmed || b.status == BookingStatus.completed))).length

/-- The booking-status transitions each operation actually performs on a
stored booking, read off the code: `updateBooking` writes any requested enum
value, `cancelBooking` writes `cancelled` from any status, `processRefund`
moves any non-cancelled (paid) booking to `cancelled`, `confirmBooking` only
confirms a pending one, `handleDisputeCreated` writes `disputed` from any
status, and no other operation mutates a stored booking. -/
def statusTransitionAllowed : Op → BookingStatus → BookingStatus → Prop
  | Op.updateBooking _ _ _, _, _ => True
  | Op.cancelBooking _ _, _, t => t = BookingStatus.cancelled
  | Op.processRefund _ _ _ _ _ _, s, t =>
      s ≠ BookingStatus.cancelled ∧ t = BookingStatus.cancelled
  | Op.confirmBooking _ _, s, t =>
      s = BookingStatus.pending ∧ t = BookingStatus.confirmed
  | Op.handleDisputeCreated _, _, t => t = BookingStatus.disputed
  | _, _, _ => False

/-- How one operation can reshape the stored booking list `l` it leaves
behind: unchanged, one fresh insert (guarded by both unique indexes), or one
in-place rewrite of a stored booking that keeps its identity fields and
respects `statusTransitionAllowed`. -/
def bookingsShape (db : DB) (op : Op) (l : List BookingDoc) : Prop :=
  l = db.bookings ∨
  (∃ nb, l = db.bookings ++ [nb] ∧
    (∀ x ∈ db.bookings, x.id ≠ nb.id) ∧
    (∀ x ∈ db.bookings, ¬(x.userId = nb.userId ∧ x.eventId = nb.eventId))) ∨
  (∃ b0 nb, b0 ∈ db.bookings ∧
    l = db.bookings.map (updFn nb) ∧
    nb.id = b0.id ∧ nb.userId = b0.userId ∧ nb.eventId = b0.eventId ∧
    statusTransitionAllowed op b0.status nb.status)

/- Concrete stores used by the per-claim evaluations and witnesses. -/

def evC1 : EventDoc :=
  { hostId := 4, price := 10, maxParticipants := 10, currentParticipants := 1,
    status := EventStatus.open_, participants := [2], isPast := false }

def bkC1a : BookingDoc :=
  { id := 1, userId := 2, eventId := 1, hostId := some 4,
    status := BookingStatus.confirmed, paymentStatus := PaymentStatus.paid,
    paymentIntentId := some 6, amount := 10, quantity := some 1,
    refundId := none, refundAmount := none, refundReason := none }

def bkC1b : BookingDoc :=
  { id := 2, userId := 3, eventId := 1, hostId := some 4,
    status := BookingStatus.pending, paymentStatus := PaymentStatus.paid,
    paymentIntentId := some 7, amount := 10, quantity := some 1,
    refundId := none, refundAmount := none, refundReason := none }

def dbC1 : DB := { events := [(1, evC1)], bookings := [bkC1a, bkC1b] }

def piC1 : PaymentIntent :=
  { id := 7, status := "succeeded", amount := 1000,
    metadata := { eventId := none, userId := none, quantity := none } }

/-- The booking bkC1b after the full refund of C1.  1000 cents / 100. -/
def bkC1bRefunded : BookingDoc :=
  { bkC1b with
    status := BookingStatus.cancelled,
    paymentStatus := PaymentStatus.refunded,
    refundId := some 9,
    refundAmount := some 10 }

def evC3 : EventDoc := { evC1 with currentParticipants := 0, participants := [] }

def dbC3 : DB := { events := [(1, evC3)], bookings := [] }

def evC5 : EventDoc := { evC1 with maxParticipants := 1 }

def dbC5 : DB := { events := [(1, evC5)], bookings := [] }

def bkC6 : BookingDoc :=
  { bkC1a with hostId := some 7, status := BookingStatus.cancelled }

def dbC6 : DB := { events := [], bookings := [bkC6] }

def dbC7 : DB :=
  { events := [(1, { evC1 with currentParticipants := 0, participants := [] })],
    bookings := [] }

def piC7 : PaymentIntent :=
  { id := 5, status := "succeeded", amount := 1000,
    metadata := { eventId := some 1, userId := some 2, quantity := some 1 } }

def bkC8 : BookingDoc := { bkC1a with status := BookingStatus.cancelled }

def dbC8 : DB := { events := [], bookings := [bkC8] }

def bkC9 : BookingDoc := { bkC1a with paymentIntentId := some 5 }

def evC9 : EventDoc := { evC1 with maxParticipants := 1, status := EventStatus.full }

def dbC9 : DB := { events := [(1, evC9)], bookings := [bkC9] }

/-- The booking bkC9 after the full refund of C9. -/
def bkC9Refunded : BookingDoc :=
  { bkC9 with
    status := BookingStatus.cancelled,
    paymentStatus := PaymentStatus.refunded,
    refundId := some 9,
    refundAmount := some 10 }

def piC9 : PaymentIntent :=
  { id := 5, status := "succeeded", amount := 1000,
    metadata := { eventId := none, userId := none, quantity := none } }

def dbC9w : DB :=
  { events := [(1, { evC1 with maxParticipants := 2 })], bookings := [bkC1a] }

/-- The event of dbC9w after its confirmed booking is cancelled. -/
def evC9wAfter : EventDoc :=
  { evC1 with maxParticipants := 2, currentParticipants := 0, participants := [] }

def dbC4w : DB := { events := [(1, evC1)], bookings := [bkC9] }

/-- The booking bkC9 after the partial 5-dollar refund of the C4 witness. -/
def bkC4wRefunded : BookingDoc :=
  { bkC9 with
    status := BookingStatus.cancelled,
    paymentStatus := PaymentStatus.refunded,
    refundId := some 9,
    refundAmount := some 5,
    refundReason := some "conflict" }

/-- The store dbC4w after the partial refund of the C4 witness. -/
def dbC4wAfter : DB :=
  { events := [(1, { evC1 with currentParticipants := 0 })], bookings := [bkC4wRefunded] }

/-- Equality of operation results is decidable, so concrete runs can be
checked by evaluation. -/
instance exceptDecEq {e a : Type} [DecidableEq e] [DecidableEq a] :
    DecidableEq (Except e a) := fun x y =>
  match x, y with
  | Except.ok v, Except.ok w => decidable_of_iff (v = w) (by simp)
  | Except.error v, Except.error w => decidable_of_iff (v = w) (by simp)
  | Except.ok _, Except.error _ => isFalse (by simp)
  | Except.error _, Except.ok _ => isFalse (by simp)

/- Helper lemmas. -/

lemma saveBookingDoc_eq_some {b b2 : BookingDoc} (h : saveBookingDoc b = some b2) :
    b2 = b := by
  unfold saveBookingDoc at h
  split at h
  · exact (Option.some.injEq _ _ ▸ h).symm
  · exact absurd h (by simp)

lemma setEvent_bookings (db : DB) (eventId : Nat) (e : EventDoc) :
    (setEvent db eventId e).bookings = db.bookings := rfl

lemma incEventParticipants_bookings (db : DB) (eventId : Nat) (delta : Int) :
    (incEventParticipants db eventId delta).bookings = db.bookings := rfl

lemma setBooking_bookings (db : DB) (b : BookingDoc) :
    (setBooking db b).bookings = db.bookings.map (updFn b) := rfl

lemma updFn_id_eq (b x : BookingDoc) : (updFn b x).id = x.id := by
  unfold updFn
  split
  · next h => exact ((by simpa using h : x.id = b.id)).symm
  · rfl

lemma findBooking_mem {db : DB} {i : Nat} {b : BookingDoc}
    (h : findBooking db i = some b) : b ∈ db.bookings ∧ b.id = i := by
  unfold findBooking at h
  refine ⟨List.mem_of_find?_eq_some h, ?_⟩
  have := List.find?_some h
  simpa using this

lemma idsDistinct_unique {l : List BookingDoc} (h : idsDistinct l)
    {a b : BookingDoc} (ha : a ∈ l) (hb : b ∈ l) (hid : a.id = b.id) : a = b := by
  by_contra hne
  exact (h.forall (fun x y hxy => (Ne.symm hxy)) ha hb hne) hid

lemma setBooking_self {db : DB} {b : BookingDoc}
    (hid : idsDistinct db.bookings) (hb : b ∈ db.bookings) : setBooking db b = db := by
  unfold setBooking
  have : db.bookings.map (updFn b) = db.bookings := by
    have : ∀ x ∈ db.bookings, updFn b x = x := by
      intro x hx
      unfold updFn
      split
      · next hxe =>
        have hxb : x.id = b.id := by simpa using hxe
        exact (idsDistinct_unique hid hx hb hxb).symm
      · rfl
    calc db.bookings.map (updFn b) = db.bookings.map id := List.map_congr_left this
    _ = db.bookings := List.map_id _
  simp [this]

lemma insertBooking_ok {db : DB} {b : BookingDoc} {db1 : DB}
    (h : insertBooking db b = Except.ok db1) :
    db1.bookings = db.bookings ++ [b] ∧
    (∀ x ∈ db.bookings, x.id ≠ b.id) ∧
    (∀ x ∈ db.bookings, ¬(x.userId = b.userId ∧ x.eventId = b.eventId)) ∧
    db1.events = db.events := by
  unfold insertBooking at h
  split at h
  · exact absurd h (by simp)
  · split at h
    · exact absurd h (by simp)
    · split at h
      · exact absurd h (by simp)
      · next h2 h3 =>
        have hdb : db1 = { db with bookings := db.bookings ++ [b] } := by
          exact (Except.ok.injEq _ _ ▸ h).symm
        subst hdb
        refine ⟨rfl, ?_, ?_, rfl⟩
        · intro x hx hxb
          exact h2 (by simp only [List.any_eq_true]; exact ⟨x, hx, by simp [hxb]⟩)
        · intro x hx hxb
          exact h3 (by
            simp only [List.any_eq_true]
            exact ⟨x, hx, by simp [hxb.1, hxb.2]⟩)

lemma cancelBookingEventUpdate_ok {db db1 : DB} {booking : BookingDoc}
    (h : cancelBookingEventUpdate db booking = Except.ok db1) :
    db1.bookings = db.bookings := by
  unfold cancelBookingEventUpdate at h
  split at h
  · dsimp only [] at h
    split at h
    · exact congrArg DB.bookings (Except.ok.injEq _ _ ▸ h).symm
    · split at h
      · have : db1 = setEvent db booking.eventId _ := (Except.ok.injEq _ _ ▸ h).symm
        rw [this, setEvent_bookings]
      · exact absurd h (by simp)
  · exact congrArg DB.bookings (Except.ok.injEq _ _ ▸ h).symm

lemma bookingsShape_applyOp (db : DB) (op : Op) :
    bookingsShape db op (applyOp db op).bookings := by
  cases op with
  | createBooking actor eventId newId =>
    simp only [applyOp]
    unfold createBooking
    split
    · exact Or.inl rfl
    · split
      · exact Or.inl rfl
      · split
        · exact Or.inl rfl
        · split
          · exact Or.inl rfl
          · dsimp only []
            split
            · exact Or.inl rfl
            · next db1 hins =>
              obtain ⟨hb, hid, hpair, _⟩ := insertBooking_ok hins
              refine Or.inr (Or.inl ?_)
              split
              · split
                · exact ⟨_, by simpa [setEvent_bookings] using hb, hid, hpair⟩
                · exact ⟨_, hb, hid, hpair⟩
              · exact ⟨_, hb, hid, hpair⟩
  | createPaymentIntent userId eventId quantity newIntentId =>
    simp only [applyOp]
    unfold createPaymentIntent
    split
    · exact Or.inl rfl
    · split
      · exact Or.inl rfl
      · split
        · exact Or.inl rfl
        · split
          · exact Or.inl rfl
          · exact Or.inl rfl
  | confirmPayment paymentIntentId retrieved newBookingId =>
    simp only [applyOp]
    unfold confirmPayment
    split
    · exact Or.inl rfl
    · split
      · exact Or.inl rfl
      · split
        · split
          · exact Or.inl rfl
          · dsimp only []
            split
            · exact Or.inl rfl
            · next db1 hins =>
              obtain ⟨hb, hid, hpair, _⟩ := insertBooking_ok hins
              exact Or.inr (Or.inl ⟨_, by simpa [incEventParticipants_bookings] using hb,
                hid, hpair⟩)
        · exact Or.inl rfl
  | handlePaymentSucceeded paymentIntent newBookingId =>
    simp only [applyOp]
    unfold handlePaymentSucceeded
    split
    · split
      · exact Or.inl rfl
      · dsimp only []
        split
        · exact Or.inl rfl
        · next db1 hins =>
          obtain ⟨hb, hid, hpair, _⟩ := insertBooking_ok hins
          exact Or.inr (Or.inl ⟨_, by simpa [incEventParticipants_bookings] using hb,
            hid, hpair⟩)
    · exact Or.inl rfl
  | confirmBooking actor bookingId =>
    simp only [applyOp]
    unfold confirmBooking
    split
    · exact Or.inl rfl
    · next booking hfind =>
      obtain ⟨hmem, _⟩ := findBooking_mem hfind
      split
      · exact Or.inl rfl
      · split
        · exact Or.inl rfl
        · next _ hpending =>
          split
          · exact Or.inl rfl
          · dsimp only []
            split
            · exact Or.inl rfl
            · next b2 hsave =>
              have hb2 := saveBookingDoc_eq_some hsave
              subst hb2
              split
              · exact Or.inr (Or.inr ⟨booking, _, hmem, rfl, rfl, rfl, rfl,
                  by simpa [statusTransitionAllowed] using not_not.mp hpending⟩)
              · split
                · exact Or.inr (Or.inr ⟨booking, _, hmem, rfl, rfl, rfl, rfl,
                    by simpa [statusTransitionAllowed] using not_not.mp hpending⟩)
                · split
                  · exact Or.inr (Or.inr ⟨booking, _, hmem, rfl, rfl, rfl, rfl,
                      by simpa [statusTransitionAllowed] using not_not.mp hpending⟩)
                  · exact Or.inr (Or.inr ⟨booking, _, hmem, rfl, rfl, rfl, rfl,
                      by simpa [statusTransitionAllowed] using not_not.mp hpending⟩)
  | cancelBooking actor bookingId =>
    simp only [applyOp]
    unfold cancelBooking
    split
    · exact Or.inl rfl
    · next booking hfind =>
      obtain ⟨hmem, _⟩ := findBooking_mem hfind
      split
      · exact Or.inl rfl
      · split
        · exact Or.inl rfl
        · next db1 hup =>
          have hdb1 := cancelBookingEventUpdate_ok hup
          dsimp only []
          split
          · next b2 hsave =>
            have hb2 := saveBookingDoc_eq_some hsave
            subst hb2
            refine Or.inr (Or.inr ⟨booking, { booking with status := BookingStatus.cancelled },
              hmem, ?_, rfl, rfl, rfl, by simp [statusTransitionAllowed]⟩)
            rw [setBooking_bookings, hdb1]
          · exact Or.inl hdb1
  | updateBooking actor bookingId statusUpd =>
    simp only [applyOp]
    unfold updateBooking
    split
    · exact Or.inl rfl
    · next booking hfind =>
      obtain ⟨hmem, _⟩ := findBooking_mem hfind
      split
      · exact Or.inl rfl
      · split
        · exact Or.inl rfl
        · exact Or.inr (Or.inr ⟨booking, _, hmem, rfl,
            rfl, rfl, rfl, by simp [statusTransitionAllowed]⟩)
  | processRefund bookingId amount reason retrieved gatewayUp newRefundId =>
    simp only [applyOp]
    unfold processRefund
    split
    · exact Or.inl rfl
    · next booking hfind =>
      obtain ⟨hmem, _⟩ := findBooking_mem hfind
      split
      · exact Or.inl rfl
      · next hnc =>
        split
        · exact Or.inl rfl
        · split
          · exact Or.inl rfl
          · dsimp only []
            split
            · exact Or.inl rfl
            · split
              · exact Or.inl rfl
              · next b2 hsave =>
                have hb2 := saveBookingDoc_eq_some hsave
                subst hb2
                exact Or.inr (Or.inr ⟨booking, _, hmem, rfl,
                  rfl, rfl, rfl, by simp [statusTransitionAllowed, hnc]⟩)
  | handleDisputeCreated disputeIntentId =>
    simp only [applyOp]
    unfold handleDisputeCreated
    split
    · exact Or.inl rfl
    · next booking hfind =>
      have hmem := List.mem_of_find?_eq_some hfind
      dsimp only []
      split
      · next b2 hsave =>
        have hb2 := saveBookingDoc_eq_some hsave
        subst hb2
        exact Or.inr (Or.inr ⟨booking, _, hmem, rfl,
          rfl, rfl, rfl, by simp [statusTransitionAllowed]⟩)
      · exact Or.inl rfl

lemma wf_applyOp {db : DB} (op : Op)
    (h1 : idsDistinct db.bookings) (h2 : pairsDistinct db.bookings) :
    idsDistinct (applyOp db op).bookings ∧ pairsDistinct (applyOp db op).bookings := by
  rcases bookingsShape_applyOp db op with hsame | ⟨nb, hap, hid, hpair⟩ |
    ⟨b0, nb, hb0, hmap, hnid, hnu, hne, _⟩
  · rw [hsame]; exact ⟨h1, h2⟩
  · rw [hap]
    constructor
    · unfold idsDistinct at *
      rw [List.pairwise_append]
      refine ⟨h1, by simp, ?_⟩
      intro a ha b hb
      have : b = nb := by simpa using hb
      subst this
      exact hid a ha
    · unfold pairsDistinct at *
      rw [List.pairwise_append]
      refine ⟨h2, by simp, ?_⟩
      intro a ha b hb
      have : b = nb := by simpa using hb
      subst this
      exact hpair a ha
  · rw [hmap]
    have hfields : ∀ x ∈ db.bookings, (updFn nb x).id = x.id ∧
        (updFn nb x).userId = x.userId ∧ (updFn nb x).eventId = x.eventId := by
      intro x hx
      unfold updFn
      split
      · next hxe =>
        have hxid : x.id = nb.id := by simpa using hxe
        have hxb0 : x = b0 := idsDistinct_unique h1 hx hb0 (hxid.trans hnid)
        subst hxb0
        exact ⟨hnid, hnu, hne⟩
      · exact ⟨rfl, rfl, rfl⟩
    constructor
    · unfold idsDistinct at *
      rw [List.pairwise_map]
      refine h1.imp_of_mem ?_
      intro a b ha hb hR
      rw [(hfields a ha).1, (hfields b hb).1]
      exact hR
    · unfold pairsDistinct at *
      rw [List.pairwise_map]
      refine h2.imp_of_mem ?_
      intro a b ha hb hR
      rw [(hfields a ha).2.1, (hfields a ha).2.2, (hfields b hb).2.1, (hfields b hb).2.2]
      exact hR

lemma length_filter_le_one {l : List BookingDoc} {userId eventId : Nat}
    (h : List.Pairwise (fun a b => ¬(a.userId = b.userId ∧ a.eventId = b.eventId)) l) :
    (l.filter (fun b => b.userId == userId && b.eventId == eventId &&
      b.status != BookingStatus.cancelled)).length ≤ 1 := by
  induction l with
  | nil => simp
  | cons x xs ih =>
    rw [List.pairwise_cons] at h
    obtain ⟨hx, hxs⟩ := h
    by_cases hpx : (x.userId == userId && x.eventId == eventId &&
        x.status != BookingStatus.cancelled) = true
    · rw [List.filter_cons, if_pos hpx]
      have hnil : xs.filter (fun b => b.userId == userId && b.eventId == eventId &&
          b.status != BookingStatus.cancelled) = [] := by
        rw [List.filter_eq_nil_iff]
        intro b hb hpb
        have hxu : x.userId = userId ∧ x.eventId = eventId := by
          simp only [Bool.and_eq_true, beq_iff_eq] at hpx
          exact ⟨hpx.1.1, hpx.1.2⟩
        have hbu : b.userId = userId ∧ b.eventId = eventId := by
          simp only [Bool.and_eq_true, beq_iff_eq] at hpb
          exact ⟨hpb.1.1, hpb.1.2⟩
        exact hx b hb ⟨hxu.1.trans hbu.1.symm, hxu.2.trans hbu.2.symm⟩
      rw [hnil]
      simp
    · rw [List.filter_cons, if_neg hpx]
      exact ih hxs


/- Claim theorems. -/

/-- C2: at every state reachable by the engine operations from a store
satisfying the two unique indexes of bookingSchema (distinct `_id`s and
distinct (userId, eventId) pairs), at most one non-cancelled booking exists
per (userId, eventId) pair; in particular no operation, createBooking and
client- or webhook-triggered confirmPayment included, can create a second
one. -/
theorem C2_at_most_one_active_booking (db : DB) (ops : List Op)
    (h1 : idsDistinct db.bookings) (h2 : pairsDistinct db.bookings)
    (userId eventId : Nat) :
    activePairCount (applyOps db ops) userId eventId ≤ 1 := by
  suffices h : idsDistinct (applyOps db ops).bookings ∧
      pairsDistinct (applyOps db ops).bookings from
    length_filter_le_one h.2
  induction ops generalizing db with
  | nil => exact ⟨h1, h2⟩
  | cons op rest ih =>
    have hstep := wf_applyOp op h1 h2
    exact ih (applyOp db op) hstep.1 hstep.2

/-- Witness for C2 at a concrete store and operation sequence. -/
theorem C2_at_most_one_active_booking_witness :
    idsDistinct dbC1.bookings ∧ pairsDistinct dbC1.bookings ∧
    activePairCount (applyOps dbC1 [Op.processRefund 2 none none (some piC1) true 9]) 3 1 ≤ 1 :=
  ⟨by unfold idsDistinct; decide, by unfold pairsDistinct; decide,
    C2_at_most_one_active_booking dbC1 _ (by unfold idsDistinct; decide)
      (by unfold pairsDistinct; decide) 3 1⟩

/-- C1 (code-bug evaluation): the claimed equality `currentParticipants =
count of confirmed/completed bookings` is not maintained by the listed
operations.  In `dbC1` it holds (one confirmed booking, counter 1), yet one
`processRefund` of the pending-but-paid booking bkC1b is accepted and
decrements the counter although that booking was never counted: afterwards
the counter is 0 while the confirmed/completed count is still 1.  (The
booking-creating operations, for their part, can never succeed at all: see
the C3 and C7 evaluations.) -/
theorem C1_code_bug_eval :
    countedBookings dbC1 1 = 1 ∧ evC1.currentParticipants = 1 ∧
    processRefund dbC1 2 none none (some piC1) true 9 =
      ({ events := [(1, { evC1 with currentParticipants := 0 })],
          bookings := [bkC1a, bkC1bRefunded] }, Except.ok ()) ∧
    countedBookings (processRefund dbC1 2 none none (some piC1) true 9).1 1 = 1 := by
  norm_num [processRefund, dbC1, findBooking, bkC1a, bkC1b, piC1, evC1,
    List.find?_cons, List.filter_cons, saveBookingDoc, bookingValidates,
    gatewayAcceptsRefund, setBooking, incEventParticipants, updFn,
    countedBookings, bkC1bRefunded]
  all_goals decide

/-- C3 (code-bug evaluation): for an open, not-full, priced event every
availability check of createBooking passes and the insert then fails mongoose
validation, because the controller never sets the schema-required `quantity`:
createBooking cannot succeed and the store is unchanged (so no booking with
amount = price x quantity is ever produced, and the seeded statuses are never
persisted). -/
theorem C3_code_bug_eval :
    evC3.status = EventStatus.open_ ∧
    evC3.currentParticipants < (evC3.maxParticipants : Int) ∧
    (0 : ℚ) < evC3.price ∧
    createBooking dbC3 ⟨2, UserRole.user⟩ 1 99 = (dbC3, Except.error "ValidationError") := by
  norm_num [createBooking, dbC3, evC3, evC1, findEvent, List.find?_cons,
    insertBooking, bookingValidates, List.find?_nil]

/-- C5 (counterexample): an open, future event with maxParticipants = 1 and
currentParticipants = 1 but no stored booking documents.  The claim demands a
capacity rejection for quantity 1 (currentParticipants + 1 > maxParticipants);
createPaymentIntent instead counts the zero non-cancelled booking documents
and issues the intent. -/
theorem C5_counterexample :
    (evC5.maxParticipants : Int) < evC5.currentParticipants + 1 ∧
    dbC5.bookings = [] ∧
    createPaymentIntent dbC5 3 1 1 9 =
      (dbC5, Except.ok { paymentIntentId := 9, amount := 1000 }) := by
  norm_num [createPaymentIntent, dbC5, evC5, evC1, findEvent, List.find?_cons,
    activeBookingsCount]

/-- C6 (counterexample): updateBooking lets the host rewrite a cancelled
booking back to pending, a transition outside
pending -> confirmed -> (cancelled | completed | disputed). -/
theorem C6_counterexample :
    bkC6.status = BookingStatus.cancelled ∧
    updateBooking dbC6 ⟨7, UserRole.host⟩ 1 (some BookingStatus.pending) =
      ({ events := [], bookings := [{ bkC6 with status := BookingStatus.pending }] },
        Except.ok { bkC6 with status := BookingStatus.pending }) := by
  norm_num [updateBooking, dbC6, bkC6, bkC1a, findBooking, List.find?_cons,
    setBooking, updFn]

/-- C7 (code-bug evaluation): a succeeded intent with complete metadata.
confirmPayment builds its Booking without the schema-required `hostId`, so
save() always throws and the catch rethrows: each of two consecutive calls
(the idempotent retry included) fails, the store still holds no booking for
the intent, and currentParticipants is never incremented, against the claimed
exactly-one-booking outcome. -/
theorem C7_code_bug_eval :
    piC7.status = "succeeded" ∧
    confirmPayment dbC7 5 (some piC7) 100 = (dbC7, Except.error "Failed to confirm payment") ∧
    confirmPayment (confirmPayment dbC7 5 (some piC7) 100).1 5 (some piC7) 101 =
      (dbC7, Except.error "Failed to confirm payment") ∧
    dbC7.bookings = [] := by
  norm_num [confirmPayment, dbC7, piC7, insertBooking, bookingValidates,
    List.find?_nil]

/-- C8 (counterexample): cancelBooking on an already-cancelled booking is not
rejected: it answers success again (and changes nothing); there is no
ALREADY_CANCELLED guard in the controller. -/
theorem C8_counterexample :
    bkC8.status = BookingStatus.cancelled ∧
    cancelBooking dbC8 ⟨2, UserRole.user⟩ 1 = (dbC8, Except.ok bkC8) := by
  norm_num [cancelBooking, dbC8, bkC8, bkC1a, findBooking, List.find?_cons,
    cancelBookingEventUpdate, saveBookingDoc, bookingValidates, setBooking, updFn]
  all_goals decide

/-- C9 (counterexample): a full event at capacity 1 with one confirmed paid
booking.  processRefund succeeds and drops currentParticipants below
maxParticipants through findByIdAndUpdate, which bypasses the pre-save hook:
the event status remains `full` instead of reverting to `open`. -/
theorem C9_counterexample :
    processRefund dbC9 1 none none (some piC9) true 9 =
      ({ events := [(1, { evC9 with currentParticipants := 0 })],
          bookings := [bkC9Refunded] }, Except.ok ()) ∧
    evC9.status = EventStatus.full ∧
    (0 : Int) < (evC9.maxParticipants : Int) := by
  norm_num [processRefund, dbC9, bkC9, bkC1a, piC9, evC9, evC1, findBooking,
    List.find?_cons, saveBookingDoc, bookingValidates, gatewayAcceptsRefund,
    setBooking, incEventParticipants, updFn, bkC9Refunded]
  all_goals decide


/-- C10: if the gateway interaction of processRefund fails - the payment
intent retrieve throws, or the refund request does not go through - the
booking and the event keep all their prior values (the whole store is
unchanged) and the failure surfaces to the caller as an error. -/
theorem C10_gateway_failure_leaves_state (db : DB) (bookingId : Nat)
    (amount : Option ℚ) (reason : Option String) (retrieved : Option PaymentIntent)
    (gatewayUp : Bool) (newRefundId : Nat)
    (h : retrieved = none ∨ gatewayUp = false) :
    ∃ msg, processRefund db bookingId amount reason retrieved gatewayUp newRefundId =
      (db, Except.error msg) := by
  unfold processRefund
  split
  · exact ⟨_, rfl⟩
  · split
    · exact ⟨_, rfl⟩
    · split
      · exact ⟨_, rfl⟩
      · rcases h with h | h
        · subst h
          exact ⟨_, rfl⟩
        · subst h
          split
          · exact ⟨_, rfl⟩
          · exact ⟨_, rfl⟩

/-- Witness for C10: a refund attempt whose intent retrieve fails. -/
theorem C10_gateway_failure_leaves_state_witness :
    ((none : Option PaymentIntent) = none ∨ true = false) ∧
    ∃ msg, processRefund dbC1 2 none none none true 9 = (dbC1, Except.error msg) :=
  ⟨Or.inl rfl, C10_gateway_failure_leaves_state dbC1 2 none none none true 9 (Or.inl rfl)⟩

/-- C8 (amended): cancelBooking on an already-cancelled booking succeeds
again for any authorized actor and leaves the store exactly as it was; the
request is not rejected. -/
theorem C8_amended_cancel_idempotent (db : DB) (actor : Actor) (bookingId : Nat)
    (b : BookingDoc)
    (hid : idsDistinct db.bookings)
    (hfind : findBooking db bookingId = some b)
    (hst : b.status = BookingStatus.cancelled)
    (hperm : ¬(b.userId ≠ actor.id ∧ b.hostId ≠ some actor.id ∧ actor.role ≠ UserRole.admin))
    (hval : bookingValidates b = true) :
    cancelBooking db actor bookingId = (db, Except.ok b) := by
  have hb1 : { b with status := BookingStatus.cancelled } = b := by
    cases b
    simp only at hst
    rw [hst]
  have hupd : cancelBookingEventUpdate db b = Except.ok db := by
    unfold cancelBookingEventUpdate
    rw [if_neg (by simp [hst])]
  have hsave : saveBookingDoc b = some b := by
    unfold saveBookingDoc
    rw [if_pos hval]
  unfold cancelBooking
  rw [hfind]
  dsimp only []
  rw [if_neg hperm, hupd]
  dsimp only []
  rw [hb1, hsave]
  dsimp only []
  rw [setBooking_self hid (findBooking_mem hfind).1]

/-- Witness for C8 (amended) at a concrete cancelled booking. -/
theorem C8_amended_cancel_idempotent_witness :
    bkC8.status = BookingStatus.cancelled ∧
    cancelBooking dbC8 ⟨2, UserRole.user⟩ 1 = (dbC8, Except.ok bkC8) :=
  ⟨rfl, C8_amended_cancel_idempotent dbC8 ⟨2, UserRole.user⟩ 1 bkC8
    (by unfold idsDistinct; decide) (by decide) rfl (by decide) (by decide)⟩


lemma find?_map_updFn {l : List BookingDoc} {i : Nat} {b0 nb : BookingDoc}
    (hfind : l.find? (fun x => x.id == i) = some b0) (hid : nb.id = b0.id) :
    (l.map (updFn nb)).find? (fun x => x.id == i) = some nb := by
  induction l with
  | nil => simp at hfind
  | cons x xs ih =>
    rw [List.map_cons, List.find?_cons] at *
    by_cases hx : (x.id == i) = true
    · simp only [hx] at hfind
      have hxb0 : x = b0 := by simpa using hfind
      subst hxb0
      have hupd : updFn nb x = nb := by
        unfold updFn
        rw [if_pos (by simpa using hid.symm)]
      rw [hupd]
      simp only [show (nb.id == i) = true from by rw [hid]; exact hx]
    · have hx2 : (x.id == i) = false := by simpa using hx
      simp only [hx2] at hfind
      have hhead : ((updFn nb x).id == i) = false := by
        rw [updFn_id_eq]
        exact hx2
      simp only [hhead]
      exact ih hfind

/-- C4: whenever processRefund succeeds, the rewritten booking carries
status cancelled and paymentStatus refunded, records the gateway refund id,
the requested reason and a refund amount that never exceeds the originally
captured amount (intent amount / 100 dollars); when no partial amount was
requested, the recorded refund is exactly the full captured amount.  (The
bound holds because the external processor rejects refunds exceeding the
captured amount - the service itself performs no such check.) -/
theorem C4_refund_bounded_and_recorded (db : DB) (bookingId : Nat)
    (amount : Option ℚ) (reason : Option String) (pi : PaymentIntent)
    (gatewayUp : Bool) (newRefundId : Nat) (db2 : DB)
    (hok : processRefund db bookingId amount reason (some pi) gatewayUp newRefundId =
      (db2, Except.ok ())) :
    ∃ b, findBooking db2 bookingId = some b ∧
      b.status = BookingStatus.cancelled ∧ b.paymentStatus = PaymentStatus.refunded ∧
      b.refundId = some newRefundId ∧ b.refundReason = reason ∧
      ∃ r, b.refundAmount = some r ∧ r ≤ (pi.amount : ℚ) / 100 ∧
        (amount = none → r = (pi.amount : ℚ) / 100) := by
  unfold processRefund at hok
  split at hok
  · exact absurd hok (by simp)
  · next booking hfind =>
    split at hok
    · exact absurd hok (by simp)
    · split at hok
      · exact absurd hok (by simp)
      · dsimp only [] at hok
        split at hok
        · exact absurd hok (by simp)
        · next hgw =>
          split at hok
          · exact absurd hok (by simp)
          · next b2 hsave =>
            have hb2 := saveBookingDoc_eq_some hsave
            subst hb2
            simp at hgw
            unfold gatewayAcceptsRefund at hgw
            simp only [Bool.and_eq_true, decide_eq_true_eq] at hgw
            injection hok with hdb hres
            subst hdb
            unfold findBooking at hfind ⊢
            rw [incEventParticipants_bookings, setBooking_bookings]
            refine ⟨_, find?_map_updFn hfind rfl, rfl, rfl, rfl, rfl, _, rfl, ?_, ?_⟩
            · gcongr
              simp only [ite_not]
              exact_mod_cast hgw.2
            · intro ha
              subst ha
              rfl


/-- Witness for C4: a concrete partial refund of 5 dollars on a 10-dollar
(1000 cent) captured intent. -/
theorem C4_refund_bounded_and_recorded_witness :
    processRefund dbC4w 1 (some 5) (some "conflict") (some piC9) true 9 =
      (dbC4wAfter, Except.ok ()) ∧
    (∃ b, findBooking dbC4wAfter 1 = some b ∧
      b.status = BookingStatus.cancelled ∧ b.paymentStatus = PaymentStatus.refunded ∧
      b.refundId = some 9 ∧ b.refundReason = some "conflict" ∧
      ∃ r, b.refundAmount = some r ∧ r ≤ (piC9.amount : ℚ) / 100 ∧
        (some (5:ℚ) = none → r = (piC9.amount : ℚ) / 100)) := by
  have hok : processRefund dbC4w 1 (some 5) (some "conflict") (some piC9) true 9 =
      (dbC4wAfter, Except.ok ()) := by
    norm_num [processRefund, dbC4w, bkC9, bkC1a, piC9, evC1, findBooking, List.find?_cons,
      saveBookingDoc, bookingValidates, gatewayAcceptsRefund, setBooking,
      incEventParticipants, updFn, bkC4wRefunded, dbC4wAfter]
    all_goals decide
  exact ⟨hok,
    C4_refund_bounded_and_recorded dbC4w 1 (some 5) (some "conflict") piC9 true 9 _ hok⟩


lemma insertBooking_error_msg {db : DB} {b : BookingDoc} {e : String}
    (h : insertBooking db b = Except.error e) :
    e = "ValidationError" ∨ e = "E11000 duplicate key" := by
  unfold insertBooking at h
  split at h
  · exact Or.inl (by simpa using h.symm)
  · split at h
    · exact Or.inr (by simpa using h.symm)
    · split at h
      · exact Or.inr (by simpa using h.symm)
      · exact absurd h (by simp)

/-- C5 (amended): under the guards that run first (event exists, open, not
past), createPaymentIntent raises the capacity error exactly when the count
of stored non-cancelled booking documents plus the quantity exceeds
maxParticipants, while createBooking raises EVENT_FULL exactly when
currentParticipants has reached maxParticipants, with no quantity involved:
neither matches the claimed `currentParticipants + quantity > maxParticipants`
formula and the two checks are not identical. -/
theorem C5_amended_capacity_checks (db : DB) (event : EventDoc) (actor : Actor)
    (userId eventId quantity newIntentId newId : Nat)
    (hev : findEvent db eventId = some event)
    (hopen : event.status = EventStatus.open_)
    (hfuture : event.isPast = false) :
    ((createPaymentIntent db userId eventId quantity newIntentId).2 =
        Except.error "Not enough spots available" ↔
      event.maxParticipants < activeBookingsCount db eventId + quantity) ∧
    ((createBooking db actor eventId newId).2 = Except.error "Event is full" ↔
      (event.maxParticipants : Int) ≤ event.currentParticipants) := by
  constructor
  · unfold createPaymentIntent
    rw [hev]
    dsimp only []
    rw [if_neg (fun h => h hopen)]
    rw [if_neg (by simp [hfuture])]
    split
    · next hcap => exact iff_of_true rfl hcap
    · next hcap => exact iff_of_false (by simp) hcap
  · unfold createBooking
    rw [hev]
    dsimp only []
    rw [if_neg (fun h => h hopen)]
    split
    · next hfull => exact iff_of_true rfl hfull
    · next hfull =>
      refine iff_of_false ?_ hfull
      split
      · intro h
        simp at h
      · split
        · next e he =>
          intro h
          simp at h
          rcases insertBooking_error_msg he with h2 | h2 <;> rw [h2] at h <;> exact absurd h (by decide)
        · split
          · split
            · intro h
              simp at h
            · intro h
              simp at h
          · intro h
            simp at h


/-- Witness for C5 (amended) at the concrete open event evC5. -/
theorem C5_amended_capacity_checks_witness :
    findEvent dbC5 1 = some evC5 ∧ evC5.status = EventStatus.open_ ∧ evC5.isPast = false ∧
    (((createPaymentIntent dbC5 3 1 1 9).2 = Except.error "Not enough spots available" ↔
        evC5.maxParticipants < activeBookingsCount dbC5 1 + 1) ∧
      ((createBooking dbC5 ⟨3, UserRole.user⟩ 1 99).2 = Except.error "Event is full" ↔
        (evC5.maxParticipants : Int) ≤ evC5.currentParticipants)) :=
  ⟨by decide, rfl, rfl,
    C5_amended_capacity_checks dbC5 evC5 ⟨3, UserRole.user⟩ 3 1 1 9 99 (by decide) rfl rfl⟩

/-- C6 (amended): whenever an operation changes the status of a stored
booking (tracked by its unique id), the change follows the per-operation
transition relation `statusTransitionAllowed`: updateBooking writes any
requested enum value regardless of the current status, cancelBooking and
processRefund write cancelled (processRefund only from a non-cancelled
booking), confirmBooking moves pending to confirmed, handleDisputeCreated
writes disputed, and no other operation rewrites a stored booking. -/
theorem C6_amended_transitions (db : DB) (op : Op) (b b2 : BookingDoc)
    (hid : idsDistinct db.bookings)
    (hb : b ∈ db.bookings) (hb2 : b2 ∈ (applyOp db op).bookings)
    (heq : b2.id = b.id) (hne : b2.status ≠ b.status) :
    statusTransitionAllowed op b.status b2.status := by
  rcases bookingsShape_applyOp db op with hsame | ⟨nb, hap, hfresh, _⟩ |
    ⟨b0, nb, hb0, hmap, hnid, _, _, htrans⟩
  · rw [hsame] at hb2
    exact absurd (congrArg BookingDoc.status (idsDistinct_unique hid hb2 hb heq)) hne
  · rw [hap] at hb2
    rcases List.mem_append.mp hb2 with h | h
    · exact absurd (congrArg BookingDoc.status (idsDistinct_unique hid h hb heq)) hne
    · have hnb : b2 = nb := by simpa using h
      subst hnb
      exact absurd heq (Ne.symm (hfresh b hb))
  · rw [hmap] at hb2
    rcases List.mem_map.mp hb2 with ⟨x, hx, hxe⟩
    by_cases hcase : (x.id == nb.id) = true
    · have hb2nb : b2 = nb := by
        rw [← hxe]
        unfold updFn
        rw [if_pos hcase]
      subst hb2nb
      have hbb0 : b = b0 :=
        idsDistinct_unique hid hb hb0 (heq.symm.trans hnid)
      rw [hbb0]
      exact htrans
    · have hb2x : b2 = x := by
        rw [← hxe]
        unfold updFn
        rw [if_neg hcase]
      subst hb2x
      exact absurd (congrArg BookingDoc.status (idsDistinct_unique hid hx hb heq)) hne

/-- Witness for C6 (amended): updateBooking rewriting a cancelled booking to
pending, a transition the relation allows for updateBooking. -/
theorem C6_amended_transitions_witness :
    idsDistinct dbC6.bookings ∧ bkC6 ∈ dbC6.bookings ∧
    { bkC6 with status := BookingStatus.pending } ∈
      (applyOp dbC6 (Op.updateBooking ⟨7, UserRole.host⟩ 1 (some BookingStatus.pending))).bookings ∧
    statusTransitionAllowed (Op.updateBooking ⟨7, UserRole.host⟩ 1 (some BookingStatus.pending))
      bkC6.status BookingStatus.pending :=
  ⟨by unfold idsDistinct; decide, by decide, by decide,
    C6_amended_transitions dbC6 (Op.updateBooking ⟨7, UserRole.host⟩ 1 (some BookingStatus.pending))
      bkC6 { bkC6 with status := BookingStatus.pending }
      (by unfold idsDistinct; decide) (by decide) (by decide) rfl (by decide)⟩


lemma hook_full_iff (e : EventDoc) :
    (eventPreSaveHook e).status = EventStatus.full ↔
    (e.maxParticipants : Int) ≤ e.currentParticipants := by
  unfold eventPreSaveHook
  split
  · next h => exact iff_of_true rfl h
  · next h =>
    split
    · exact iff_of_false (by simp) h
    · next h2 =>
      refine iff_of_false ?_ h
      intro hst
      exact h2 ⟨hst, by omega⟩

lemma hook_preserves (e : EventDoc) :
    (eventPreSaveHook e).maxParticipants = e.maxParticipants ∧
    (eventPreSaveHook e).currentParticipants = e.currentParticipants := by
  unfold eventPreSaveHook
  split
  · exact ⟨rfl, rfl⟩
  · split
    · exact ⟨rfl, rfl⟩
    · exact ⟨rfl, rfl⟩

lemma saveEventDoc_hookProp {e e2 : EventDoc} (h : saveEventDoc e = some e2) :
    e2.status = EventStatus.full ↔ (e2.maxParticipants : Int) ≤ e2.currentParticipants := by
  unfold saveEventDoc at h
  split at h
  · have he2 : e2 = eventPreSaveHook e := by simpa using h.symm
    subst he2
    rw [(hook_preserves e).1, (hook_preserves e).2]
    exact hook_full_iff e
  · exact absurd h (by simp)

lemma setBooking_events (db : DB) (b : BookingDoc) :
    (setBooking db b).events = db.events := rfl

lemma setEvent_mem {db : DB} {eid : Nat} {e : EventDoc} {p : Nat × EventDoc}
    (hp : p ∈ (setEvent db eid e).events) : p ∈ db.events ∨ p.2 = e := by
  unfold setEvent at hp
  rcases List.mem_map.mp hp with ⟨q, hq, hqe⟩
  by_cases h : (q.1 == eid) = true
  · right
    rw [← hqe, if_pos h]
  · left
    rw [← hqe, if_neg h]
    exact hq

lemma cancelBookingEventUpdate_ok_events {db db1 : DB} {booking : BookingDoc}
    (h : cancelBookingEventUpdate db booking = Except.ok db1) :
    ∀ p ∈ db1.events, p ∈ db.events ∨
      (p.2.status = EventStatus.full ↔ (p.2.maxParticipants : Int) ≤ p.2.currentParticipants) := by
  unfold cancelBookingEventUpdate at h
  split at h
  · split at h
    · have hd : db1 = db := by simpa using h.symm
      subst hd
      exact fun p hp => Or.inl hp
    · dsimp only [] at h
      split at h
      · next e3 hsave =>
        have hd : db1 = setEvent db booking.eventId e3 := by simpa using h.symm
        subst hd
        intro p hp
        rcases setEvent_mem hp with h2 | h2
        · exact Or.inl h2
        · exact Or.inr (h2 ▸ saveEventDoc_hookProp hsave)
      · exact absurd h (by simp)
  · have hd : db1 = db := by simpa using h.symm
    subst hd
    exact fun p hp => Or.inl hp

lemma incEventParticipants_status (db : DB) (eid : Nat) (d : Int) :
    (incEventParticipants db eid d).events.map (fun p => p.2.status) =
      db.events.map (fun p => p.2.status) := by
  unfold incEventParticipants
  rw [List.map_map]
  apply List.map_congr_left
  intro q hq
  by_cases h : (q.1 == eid) = true
  · simp [Function.comp, h]
  · simp [Function.comp, h]

/-- C9 (amended): (1) writing an event through its save hook leaves it with
status full exactly when currentParticipants has reached maxParticipants;
(2) processRefund changes no event status at all - its counter decrement goes
through findByIdAndUpdate, which bypasses the hook, so a full event stays
full after dropping below capacity; (3, 4) the event writes of cancelBooking
and confirmBooking go through save, so every event document they touch
satisfies the full-iff-at-capacity relation. -/
theorem C9_amended_hook_and_bypass :
    (∀ e : EventDoc, (eventPreSaveHook e).status = EventStatus.full ↔
      (e.maxParticipants : Int) ≤ e.currentParticipants) ∧
    (∀ (db : DB) (bookingId : Nat) (amount : Option ℚ) (reason : Option String)
      (retrieved : Option PaymentIntent) (gatewayUp : Bool) (newRefundId : Nat),
      (processRefund db bookingId amount reason retrieved gatewayUp newRefundId).1.events.map
          (fun p => p.2.status) =
        db.events.map (fun p => p.2.status)) ∧
    (∀ (db : DB) (actor : Actor) (bookingId : Nat),
      ∀ p ∈ (cancelBooking db actor bookingId).1.events,
        p ∈ db.events ∨ (p.2.status = EventStatus.full ↔
          (p.2.maxParticipants : Int) ≤ p.2.currentParticipants)) ∧
    (∀ (db : DB) (actor : Actor) (bookingId : Nat),
      ∀ p ∈ (confirmBooking db actor bookingId).1.events,
        p ∈ db.events ∨ (p.2.status = EventStatus.full ↔
          (p.2.maxParticipants : Int) ≤ p.2.currentParticipants)) := by
  refine ⟨hook_full_iff, ?_, ?_, ?_⟩
  · intro db bookingId amount reason retrieved gatewayUp newRefundId
    unfold processRefund
    split
    · rfl
    · split
      · rfl
      · split
        · rfl
        · split
          · rfl
          · dsimp only []
            split
            · rfl
            · split
              · rfl
              · exact incEventParticipants_status _ _ _
  · intro db actor bookingId p hp
    unfold cancelBooking at hp
    split at hp
    · exact Or.inl hp
    · split at hp
      · exact Or.inl hp
      · split at hp
        · exact Or.inl hp
        · next db1 hupd =>
          dsimp only [] at hp
          split at hp
          · exact cancelBookingEventUpdate_ok_events hupd p hp
          · exact cancelBookingEventUpdate_ok_events hupd p hp
  · intro db actor bookingId p hp
    unfold confirmBooking at hp
    split at hp
    · exact Or.inl hp
    · split at hp
      · exact Or.inl hp
      · split at hp
        · exact Or.inl hp
        · split at hp
          · exact Or.inl hp
          · dsimp only [] at hp
            split at hp
            · exact Or.inl hp
            · split at hp
              · exact Or.inl hp
              · split at hp
                · exact Or.inl hp
                · split at hp
                  · next e2 hsave =>
                    rcases setEvent_mem hp with h2 | h2
                    · exact Or.inl h2
                    · exact Or.inr (h2 ▸ saveEventDoc_hookProp hsave)
                  · exact Or.inl hp

/-- Witness for C9 (amended): the hook biconditional at evC9, the refund of
C9 changing no event status, and the event save of a concrete cancelBooking. -/
theorem C9_amended_hook_and_bypass_witness :
    ((eventPreSaveHook evC9).status = EventStatus.full ↔
      (evC9.maxParticipants : Int) ≤ evC9.currentParticipants) ∧
    ((processRefund dbC9 1 none none (some piC9) true 9).1.events.map (fun p => p.2.status) =
      dbC9.events.map (fun p => p.2.status)) ∧
    ((1, evC9wAfter) ∈ (cancelBooking dbC9w ⟨2, UserRole.user⟩ 1).1.events ∧
      ((1, evC9wAfter) ∈ dbC9w.events ∨ (evC9wAfter.status = EventStatus.full ↔
        (evC9wAfter.maxParticipants : Int) ≤ evC9wAfter.currentParticipants))) :=
  ⟨C9_amended_hook_and_bypass.1 evC9,
    C9_amended_hook_and_bypass.2.1 dbC9 1 none none (some piC9) true 9,
    by decide,
    C9_amended_hook_and_bypass.2.2.1 dbC9w ⟨2, UserRole.user⟩ 1 (1, evC9wAfter) (by decide)⟩

end EventsApp